/-
  Verification of the goinsane/filelock module (filelock.go, errors.go).

  Shallow embedding: the process-wide registry, the abstract filesystem and the
  kernel descriptor table are threaded explicitly through a World record.  The
  OS syscalls that the Go code invokes (filepath.Abs, os.OpenFile, fcntl
  F_SETLK, os.File.Close, os.Remove) are modelled as deterministic functions of
  the World plus an oracle (Os) carrying the nondeterministic parts of each
  attempt: the canonicalization result, a spurious open failure, and the
  kernel's answer to the lock request.  The working directory is assumed fixed
  for the lifetime of a handle, so a name always resolves to the same absolute
  path.
-/
import Mathlib

namespace Filelock

/-! ### Association-list maps (Go maps and tables, keys unique by use) -/

def lookupA {α β : Type} [DecidableEq α] : List (α × β) → α → Option β
  | [], _ => none
  | (k, v) :: l, a => if k = a then some v else lookupA l a

def eraseAllA {α β : Type} [DecidableEq α] : List (α × β) → α → List (α × β)
  | [], _ => []
  | (k, v) :: l, a => if k = a then eraseAllA l a else (k, v) :: eraseAllA l a

def eraseFirstA {α β : Type} [DecidableEq α] : List (α × β) → α → List (α × β)
  | [], _ => []
  | (k, v) :: l, a => if k = a then l else (k, v) :: eraseFirstA l a

def setA {α β : Type} [DecidableEq α] : List (α × β) → α → β → List (α × β)
  | [], a, b => [(a, b)]
  | (k, v) :: l, a, b => if k = a then (a, b) :: l else (k, v) :: setA l a b

theorem eraseAllA_of_lookup_none {α β : Type} [DecidableEq α]
    (l : List (α × β)) (a : α) (h : lookupA l a = none) : eraseAllA l a = l := by
  induction l with
  | nil => rfl
  | cons kv l ih =>
    obtain ⟨k, v⟩ := kv
    by_cases hk : k = a
    · simp [lookupA, hk] at h
    · simp [lookupA, hk] at h
      simp [eraseAllA, hk, ih h]

theorem lookupA_setA_self {α β : Type} [DecidableEq α]
    (l : List (α × β)) (a : α) (b : β) : lookupA (setA l a b) a = some b := by
  induction l with
  | nil => simp [setA, lookupA]
  | cons kv l ih =>
    obtain ⟨k, v⟩ := kv
    by_cases hk : k = a
    · simp [setA, hk, lookupA]
    · simp [setA, hk, lookupA, ih]

theorem lookupA_cons_self {α β : Type} [DecidableEq α]
    (l : List (α × β)) (a : α) (b : β) : lookupA ((a, b) :: l) a = some b := by
  simp [lookupA]

theorem eraseFirstA_cons_self {α β : Type} [DecidableEq α]
    (l : List (α × β)) (a : α) (b : β) : eraseFirstA ((a, b) :: l) a = l := by
  simp [eraseFirstA]

/-! ### Flags, errnos and error taxonomy (errors.go plus the os/syscall values used) -/

def O_RDONLY : Nat := 0
def O_WRONLY : Nat := 1
def O_RDWR : Nat := 2
def O_CREATE : Nat := 64
def O_EXCL : Nat := 128
def O_TRUNC : Nat := 512

def ENOENT : Nat := 2
def EWOULDBLOCK : Nat := 11
def EEXIST : Nat := 17

/-- Errors observable from the package, compared by identity as in the Go code:
`errLocked` is the sentinel `ErrLocked = LockError{errors.New("locked")}`,
`lockError e` is a `&LockError{err}` wrapping an errno, `osError e` is an
`*os.PathError` from `os.OpenFile`, `absFail` wraps a `filepath.Abs` failure,
`errFileClosed` is `os.ErrClosed` from closing an already-closed descriptor,
and `canceled` is `context.Canceled`. -/
inductive GoError : Type
  | errLocked
  | lockError (errno : Nat)
  | osError (errno : Nat)
  | absFail
  | errFileClosed
  | canceled
deriving DecidableEq, Repr

/-- The kernel's response to the fcntl F_SETLK request. -/
inductive FcntlRes : Type
  | ok
  | errno (e : Nat)
deriving DecidableEq, Repr

/-- Trace of filesystem-touching syscalls performed by an operation. -/
inductive SysCall : Type
  | opened (name : String) (flag perm : Nat)
  | closed (fd : Nat)
  | locked (fd : Nat)
  | removed (name : String)
deriving DecidableEq, Repr

/-- A file's metadata and bytes in the abstract filesystem. -/
structure FileData : Type where
  perm : Nat
  content : List Nat
deriving DecidableEq, Repr

/-- The File struct of filelock.go: embedded descriptor, the name used to open
it, the canonicalized path, with the sync.Once guard carried separately as the
Bool threaded through Close and Release. -/
structure File : Type where
  fd : Nat
  name : String
  absPath : String
deriving DecidableEq, Repr

/-- Process plus kernel state: the package registry (files map: absolute path to
nil placeholder or live handle), the filesystem, the open-descriptor table
(fd to open flag), the next fresh descriptor and the syscall trace. -/
structure World : Type where
  registry : List (String × Option File)
  fs : List (String × FileData)
  openFds : List (Nat × Nat)
  nextFd : Nat
  trace : List SysCall
deriving DecidableEq, Repr

/-- Oracle for one OpenFile attempt: the result of filepath.Abs on the name
(none models a Getwd failure), a spurious errno making os.OpenFile fail
regardless of filesystem state (none means the open follows the deterministic
filesystem semantics), and the kernel's answer to the fcntl lock request. -/
structure Os : Type where
  absRes : Option String
  openFail : Option Nat
  fcntl : FcntlRes
deriving DecidableEq, Repr

/-! ### OS syscall models -/

/-- os.OpenFile: resolves name to absPath (cwd fixed), honours O_CREATE,
O_EXCL and O_TRUNC as used by the package, allocates a fresh descriptor on
success. -/
def osOpen (os : Os) (name absPath : String) (flag perm : Nat) (w : World) :
    (Option Nat × Option GoError) × World :=
  let w0 : World := { w with trace := w.trace ++ [SysCall.opened name flag perm] }
  match os.openFail with
  | some e => ((none, some (GoError.osError e)), w0)
  | none =>
    match lookupA w0.fs absPath with
    | some d =>
      if flag.testBit 6 && flag.testBit 7 then
        ((none, some (GoError.osError EEXIST)), w0)
      else
        ((some w0.nextFd, none),
          { w0 with
            fs := if flag.testBit 9 then setA w0.fs absPath { d with content := [] } else w0.fs,
            openFds := (w0.nextFd, flag) :: w0.openFds,
            nextFd := w0.nextFd + 1 })
    | none =>
      if flag.testBit 6 then
        ((some w0.nextFd, none),
          { w0 with
            fs := (absPath, ⟨perm, []⟩) :: w0.fs,
            openFds := (w0.nextFd, flag) :: w0.openFds,
            nextFd := w0.nextFd + 1 })
      else
        ((none, some (GoError.osError ENOENT)), w0)

/-- os.File.Close: closes the descriptor if still open, otherwise reports
os.ErrClosed without touching the kernel table. -/
def osFileClose (fd : Nat) (w : World) : Option GoError × World :=
  match lookupA w.openFds fd with
  | some _ =>
      (none, { w with openFds := eraseFirstA w.openFds fd,
                      trace := w.trace ++ [SysCall.closed fd] })
  | none => (some GoError.errFileClosed, w)

/-- os.Remove by resolved path (best-effort callers ignore its error, so only
the state transition is modelled). -/
def osRemove (absPath name : String) (w : World) : World :=
  { w with fs := eraseAllA w.fs absPath, trace := w.trace ++ [SysCall.removed name] }

/-! ### The package's own functions (filelock.go) -/

/-- posixLock of filelock.go: F_SETLK with F_WRLCK; any errno other than
EWOULDBLOCK is wrapped in a LockError, EWOULDBLOCK means not acquired without
error. -/
def posixLock (r : FcntlRes) : Bool × Option GoError :=
  match r with
  | FcntlRes.ok => (true, none)
  | FcntlRes.errno e =>
    if e ≠ EWOULDBLOCK then (false, some (GoError.lockError e)) else (false, none)

/-- The critical section at the top of OpenFile: under the registry mutex,
fail if the key is present, otherwise insert the nil placeholder. -/
def checkAndReserve (absPath : String) (reg : List (String × Option File)) :
    Option (List (String × Option File)) :=
  match lookupA reg absPath with
  | some _ => none
  | none => some ((absPath, none) :: reg)

/-- The deferred rollback in OpenFile: delete the registry key. -/
def rollback (absPath : String) (w : World) : World :=
  { w with registry := eraseAllA w.registry absPath }

/-- The part of OpenFile after the placeholder has been inserted: open the
file, attempt the Posix lock, and on any failure close the descriptor (if
opened) and roll the placeholder back, exactly as the deferred functions do. -/
def openAndLock (os : Os) (name absPath : String) (flag perm : Nat) (w : World) :
    (Option File × Option GoError) × World :=
  match osOpen os name absPath flag perm w with
  | ((none, e), w1) => ((none, e), rollback absPath w1)
  | ((some fd, _), w1) =>
    let w2 : World := { w1 with trace := w1.trace ++ [SysCall.locked fd] }
    match posixLock os.fcntl with
    | (_, some e) => ((none, some e), rollback absPath (osFileClose fd w2).2)
    | (ok, none) =>
      if ok then
        ((some ⟨fd, name, absPath⟩, none),
          { w2 with registry := setA w2.registry absPath (some ⟨fd, name, absPath⟩) })
      else
        ((none, some GoError.errLocked), rollback absPath (osFileClose fd w2).2)

/-- OpenFile of filelock.go: canonicalize, check-and-reserve under the mutex,
then open and lock, storing the handle under the key on success. -/
def OpenFile (os : Os) (name : String) (flag perm : Nat) (w : World) :
    (Option File × Option GoError) × World :=
  match os.absRes with
  | none => ((none, some GoError.absFail), w)
  | some absPath =>
    match checkAndReserve absPath w.registry with
    | none => ((none, some GoError.errLocked), w)
    | some reg1 => openAndLock os name absPath flag perm { w with registry := reg1 }

/-- Open of filelock.go: OpenFile with O_RDONLY and no permissions. -/
def Open (os : Os) (name : String) (w : World) : (Option File × Option GoError) × World :=
  OpenFile os name O_RDONLY 0 w

/-- Create of filelock.go: OpenFile with O_RDWR, O_CREATE and O_TRUNC and mode
0666 (438). -/
def Create (os : Os) (name : String) (w : World) : (Option File × Option GoError) × World :=
  OpenFile os name (O_RDWR ||| O_CREATE ||| O_TRUNC) 438 w

/-- File.Close of filelock.go: always closes the embedded descriptor, then
removes the registry entry under the closeOnce guard.  The Bool is the
sync.Once state (true once consumed). -/
def File.Close (f : File) (once : Bool) (w : World) : Option GoError × Bool × World :=
  match osFileClose f.fd w with
  | (e, w1) =>
    if once then (e, once, w1)
    else (e, true, { w1 with registry := eraseAllA w1.registry f.absPath })

/-- File.Release of filelock.go: the whole body runs under the closeOnce
guard: best-effort delete of the file, close the descriptor, remove the
registry entry. -/
def File.Release (f : File) (once : Bool) (w : World) : Option GoError × Bool × World :=
  if once then (none, once, w)
  else
    match osFileClose f.fd (osRemove f.absPath f.name w) with
    | (e, w1) => (e, true, { w1 with registry := eraseAllA w1.registry f.absPath })

/-- Iterated invocations of Close on the same handle, collecting the returned
errors in order. -/
def closeIter (f : File) : Nat → Bool × World → List (Option GoError) × (Bool × World)
  | 0, s => ([], s)
  | n + 1, (o, w) =>
    match File.Close f o w with
    | (e, o1, w1) =>
      match closeIter f n (o1, w1) with
      | (es, s2) => (e :: es, s2)

/-! ### The acquisition orchestrator -/

/-- The two per-OpenFile oracles consumed by one create-or-open attempt. -/
structure Attempt : Type where
  os1 : Os
  os2 : Os
deriving DecidableEq, Repr

/-- Modelled from the spec: the two-argument Create(path, permissions) that
Acquire and the example programs call is not among the source files (the
source's one-argument Create is a different variant).  Per spec section 4.2 it
first tries opening an existing file read-write; if that fails specifically
because the file does not exist it attempts an exclusive create-new open; if
the exclusive create fails because the lock was already held the just-created
file is removed (best-effort) and the already-locked error returned; if the
exclusive create fails because the file now exists (a lost create race) that
outcome is mapped to the already-locked error. -/
def CreatePerm (a : Attempt) (name : String) (perm : Nat) (w : World) :
    (Option File × Option GoError) × World :=
  match OpenFile a.os1 name O_RDWR perm w with
  | ((f1, e1), w1) =>
    match e1 with
    | some (GoError.osError en) =>
      if en = ENOENT then
        match OpenFile a.os2 name (O_RDWR ||| O_CREATE ||| O_EXCL) perm w1 with
        | ((f2, e2), w2) =>
          match e2 with
          | some GoError.errLocked =>
            match a.os2.absRes with
            | some p => ((none, some GoError.errLocked), osRemove p name w2)
            | none => ((none, some GoError.errLocked), w2)
          | some (GoError.osError en2) =>
            if en2 = EEXIST then ((none, some GoError.errLocked), w2)
            else ((f2, some (GoError.osError en2)), w2)
          | _ => ((f2, e2), w2)
      else ((f1, some (GoError.osError en)), w1)
    | _ => ((f1, e1), w1)

/-- time.NewTicker: none models the panic raised for a non-positive period. -/
def newTicker (period : Int) : Option Unit :=
  if period ≤ 0 then none else some ()

/-- One observable event the select statement in Acquire's loop reacts to:
either the context's done channel fires (carrying ctx.Err()) or the ticker
fires and a fresh create attempt runs with its own oracles. -/
inductive AEvent : Type
  | ctxDone (e : GoError)
  | tick (a : Attempt)
deriving Repr

/-- Outcome of a run of Acquire: a normal return of (file, error), the
NewTicker panic, or still looping after the observed events ran out. -/
inductive AcqOut : Type
  | ret (f : Option File) (e : Option GoError) (w : World)
  | panicked (w : World)
  | running (w : World)
deriving Repr

def AcqOut.errOf : AcqOut → Option GoError
  | AcqOut.ret _ e _ => e
  | AcqOut.panicked _ => none
  | AcqOut.running _ => none

def AcqOut.handleOf : AcqOut → Option File
  | AcqOut.ret f _ _ => f
  | AcqOut.panicked _ => none
  | AcqOut.running _ => none

/-- The select loop of Acquire: a done event returns ctx.Err() at once; a tick
retries the create and returns its result unless it is exactly the ErrLocked
sentinel. -/
def acquireLoop (name : String) (perm : Nat) : List AEvent → World → AcqOut
  | [], w => AcqOut.running w
  | AEvent.ctxDone e :: _, w => AcqOut.ret none (some e) w
  | AEvent.tick a :: rest, w =>
    match CreatePerm a name perm w with
    | ((f, e), w1) =>
      if e = some GoError.errLocked then acquireLoop name perm rest w1
      else AcqOut.ret f e w1

/-- Acquire of filelock.go: one immediate create attempt whose result is
returned unless it is exactly ErrLocked; only then is the ticker constructed
(panicking on a non-positive period) and the polling loop entered. -/
def Acquire (a0 : Attempt) (events : List AEvent) (name : String) (perm : Nat)
    (period : Int) (w : World) : AcqOut :=
  match CreatePerm a0 name perm w with
  | ((f, e), w1) =>
    if e = some GoError.errLocked then
      match newTicker period with
      | none => AcqOut.panicked w1
      | some _ => acquireLoop name perm events w1
    else AcqOut.ret f e w1

/-! ### Concrete fixtures -/

/-- An oracle for a benign attempt on the path resolving to /a: Abs succeeds,
the open follows filesystem semantics, the kernel grants the lock. -/
def osOkA : Os := ⟨some "/a", none, FcntlRes.ok⟩

/-- An oracle for an attempt on /a whose lock request would block. -/
def osBlockA : Os := ⟨some "/a", none, FcntlRes.errno EWOULDBLOCK⟩

/-- An empty world: empty registry, filesystem and descriptor table. -/
def wEmpty : World := ⟨[], [], [], 0, []⟩

/-- A world whose registry already holds a placeholder for /a. -/
def wReserved : World := ⟨[("/a", none)], [], [], 0, []⟩

/-! ### Claims -/

/-- C9: posixLock has exactly three outcomes: (acquired, no error) when the
kernel grants the lock, (not acquired, no error) on EWOULDBLOCK, and (not
acquired, wrapped LockError) on any other errno; no other combination occurs. -/
theorem c9_posixlock_outcomes (r : FcntlRes) :
    (r = FcntlRes.ok → posixLock r = (true, none)) ∧
    (r = FcntlRes.errno EWOULDBLOCK → posixLock r = (false, none)) ∧
    (∀ e, r = FcntlRes.errno e → e ≠ EWOULDBLOCK →
      posixLock r = (false, some (GoError.lockError e))) ∧
    (posixLock r = (true, none) ∨ posixLock r = (false, none) ∨
      ∃ e, posixLock r = (false, some (GoError.lockError e))) := by
  refine ⟨?_, ?_, ?_, ?_⟩
  · rintro rfl; rfl
  · rintro rfl; simp [posixLock, EWOULDBLOCK]
  · rintro e rfl he; simp [posixLock, he]
  · cases r with
    | ok => exact Or.inl rfl
    | errno e =>
      by_cases he : e = EWOULDBLOCK
      · subst he; exact Or.inr (Or.inl (by simp [posixLock]))
      · exact Or.inr (Or.inr ⟨e, by simp [posixLock, he]⟩)

theorem c9_posixlock_outcomes_w :
    posixLock FcntlRes.ok = (true, none) ∧
    posixLock (FcntlRes.errno 11) = (false, none) ∧
    posixLock (FcntlRes.errno 13) = (false, some (GoError.lockError 13)) :=
  ⟨(c9_posixlock_outcomes FcntlRes.ok).1 rfl,
   (c9_posixlock_outcomes (FcntlRes.errno 11)).2.1 rfl,
   (c9_posixlock_outcomes (FcntlRes.errno 13)).2.2.1 13 rfl (by decide)⟩

/-- C1: when the canonicalized path is already a key of the registry, OpenFile
fails at once with the already-locked error, leaving the world (registry,
filesystem, descriptors, trace) untouched; when the key is absent — the only
state in which the attempt proceeds — OpenFile continues as openAndLock on the
world whose registry has the nil placeholder inserted, so the placeholder is in
place before any filesystem operation. -/
theorem c1_openfile_registry_guard (os : Os) (name : String) (flag perm : Nat)
    (w : World) (p : String) (habs : os.absRes = some p) :
    ((lookupA w.registry p).isSome →
      OpenFile os name flag perm w = ((none, some GoError.errLocked), w)) ∧
    (lookupA w.registry p = none →
      OpenFile os name flag perm w
        = openAndLock os name p flag perm { w with registry := (p, none) :: w.registry }) := by
  constructor
  · intro h
    obtain ⟨v, hv⟩ := Option.isSome_iff_exists.mp h
    simp [OpenFile, habs, checkAndReserve, hv]
  · intro h
    simp [OpenFile, habs, checkAndReserve, h]

theorem c1_openfile_registry_guard_w :
    OpenFile osOkA "a" 0 0 wReserved = ((none, some GoError.errLocked), wReserved) :=
  (c1_openfile_registry_guard osOkA "a" 0 0 wReserved "/a" rfl).1 (by decide)

/-! ### Shape lemmas about the syscall models -/

theorem osOpen_shape (os : Os) (name p : String) (flag perm : Nat) (w : World) :
    (osOpen os name p flag perm w).2.registry = w.registry ∧
    ((osOpen os name p flag perm w).1.1 = none →
      (osOpen os name p flag perm w).2.openFds = w.openFds) ∧
    (∀ fd, (osOpen os name p flag perm w).1.1 = some fd →
      (osOpen os name p flag perm w).2.openFds = (fd, flag) :: w.openFds) := by
  unfold osOpen
  cases hof : os.openFail with
  | some e => simp
  | none =>
    cases hfs : lookupA w.fs p with
    | some d =>
      by_cases hb : flag.testBit 6 && flag.testBit 7
      · simp [hfs, hb]
      · simp only [hfs, hb]
        refine ⟨rfl, by intro h; exact absurd h (by simp), ?_⟩
        intro fd h
        simp at h
        simp [← h]
    | none =>
      by_cases hb : flag.testBit 6
      · simp only [hfs, hb]
        refine ⟨rfl, by intro h; exact absurd h (by simp), ?_⟩
        intro fd h
        simp at h
        simp [← h]
      · simp [hfs, hb]

theorem osFileClose_registry (fd : Nat) (w : World) :
    (osFileClose fd w).2.registry = w.registry := by
  unfold osFileClose
  cases h : lookupA w.openFds fd <;> simp

theorem osFileClose_fds_cons (fd flag : Nat) (l : List (Nat × Nat)) (w : World)
    (hw : w.openFds = (fd, flag) :: l) : (osFileClose fd w).2.openFds = l := by
  unfold osFileClose
  rw [hw]
  simp [lookupA, eraseFirstA]

theorem openAndLock_error (os : Os) (name p : String) (flag perm : Nat) (w : World)
    (f : Option File) (e : GoError) (w' : World)
    (h : openAndLock os name p flag perm w = ((f, some e), w')) :
    f = none ∧ w'.registry = eraseAllA w.registry p ∧ w'.openFds = w.openFds := by
  have hshape := osOpen_shape os name p flag perm w
  unfold openAndLock at h
  rcases hos : osOpen os name p flag perm w with ⟨⟨ofd, oe⟩, w1⟩
  rw [hos] at h
  have hreg1 : w1.registry = w.registry := by rw [← hshape.1, hos]
  cases ofd with
  | none =>
    have hfds1 : w1.openFds = w.openFds := by
      have := hshape.2.1 (by rw [hos])
      rw [hos] at this
      exact this
    simp only at h
    injection h with h1 h2
    injection h1 with hf he
    refine ⟨hf.symm, ?_, ?_⟩
    · rw [← h2]; simp [rollback, hreg1]
    · rw [← h2]; simp [rollback, hfds1]
  | some fd =>
    have hfds1 : w1.openFds = (fd, flag) :: w.openFds := by
      have := hshape.2.2 fd (by rw [hos])
      rw [hos] at this
      exact this
    simp only at h
    rcases hpl : posixLock os.fcntl with ⟨ok, pe⟩
    rw [hpl] at h
    cases pe with
    | some e2 =>
      simp only at h
      injection h with h1 h2
      injection h1 with hf he
      have hcr : ({ w1 with trace := w1.trace ++ [SysCall.locked fd] } : World).openFds
          = (fd, flag) :: w.openFds := hfds1
      refine ⟨hf.symm, ?_, ?_⟩
      · rw [← h2]
        simp [rollback, osFileClose_registry, hreg1]
      · rw [← h2]
        simp [rollback, osFileClose_fds_cons fd flag w.openFds _ hcr]
    | none =>
      by_cases hok : ok
      · simp [hok] at h
      · simp [hok] at h
        have hcr : ({ w1 with trace := w1.trace ++ [SysCall.locked fd] } : World).openFds
            = (fd, flag) :: w.openFds := hfds1
        refine ⟨h.1.1.symm, ?_, ?_⟩
        · rw [← h.2]
          simp [rollback, osFileClose_registry, hreg1]
        · rw [← h.2]
          simp [rollback, osFileClose_fds_cons fd flag w.openFds _ hcr]

/-- C2: every OpenFile call that returns an error returns a nil handle, has
removed any registry placeholder it inserted (the final registry equals the
initial one), and has closed any descriptor it opened (the final descriptor
table equals the initial one). -/
theorem c2_openfile_failure_cleanup (os : Os) (name : String) (flag perm : Nat)
    (w : World) (f : Option File) (e : GoError) (w' : World)
    (h : OpenFile os name flag perm w = ((f, some e), w')) :
    f = none ∧ w'.registry = w.registry ∧ w'.openFds = w.openFds := by
  unfold OpenFile at h
  cases habs : os.absRes with
  | none =>
    rw [habs] at h
    simp only at h
    injection h with h1 h2
    injection h1 with hf he
    exact ⟨hf.symm, by rw [← h2], by rw [← h2]⟩
  | some p =>
    rw [habs] at h
    cases hreg : lookupA w.registry p with
    | some v =>
      simp only [checkAndReserve, hreg] at h
      injection h with h1 h2
      injection h1 with hf he
      exact ⟨hf.symm, by rw [← h2], by rw [← h2]⟩
    | none =>
      simp only [checkAndReserve, hreg] at h
      have := openAndLock_error os name p flag perm
        { w with registry := (p, none) :: w.registry } f e w' h
      refine ⟨this.1, ?_, this.2.2⟩
      rw [this.2.1]
      simp only [eraseAllA, if_pos rfl]
      exact eraseAllA_of_lookup_none w.registry p hreg

/-- The world left behind by the erroring OpenFile of the C2 witness. -/
def wTraceOpen : World := ⟨[], [], [], 0, [SysCall.opened "a" 0 0]⟩

theorem c2_openfile_failure_cleanup_w :
    (none : Option File) = none ∧ wTraceOpen.registry = wEmpty.registry ∧
      wTraceOpen.openFds = wEmpty.openFds :=
  c2_openfile_failure_cleanup osOkA "a" 0 0 wEmpty none (GoError.osError 2) wTraceOpen
    (by decide)

/-- A world with an unlocked existing file /a holding three bytes. -/
def wContent : World := ⟨[], [("/a", ⟨438, [1, 2, 3]⟩)], [], 0, []⟩

/-- C3 counterexample: Create on an absent path whose lock is already held by
another process creates the file, fails with the already-locked error, and
leaves the just-created empty file in the filesystem — it is not removed. -/
theorem c3_create_leaves_file_cex :
    (Create osBlockA "a" wEmpty).1.2 = some GoError.errLocked ∧
    lookupA (Create osBlockA "a" wEmpty).2.fs "/a" = some ⟨438, []⟩ := by decide

/-- C3 amended: when Create's open attempt creates the file and the lock
attempt then fails because the lock was already held, Create returns the
already-locked error and leaves the just-created empty file in place (the
source's Create never deletes a created file, as its own comment states); the
registry placeholder is still rolled back. -/
theorem c3_amended_create_no_delete (os : Os) (name p : String) (w : World)
    (habs : os.absRes = some p) (hof : os.openFail = none)
    (hlk : os.fcntl = FcntlRes.errno EWOULDBLOCK)
    (hreg : lookupA w.registry p = none) (hfs : lookupA w.fs p = none) :
    (Create os name w).1 = (none, some GoError.errLocked) ∧
    lookupA (Create os name w).2.fs p = some ⟨438, []⟩ ∧
    (Create os name w).2.registry = w.registry := by
  have h67 : ((O_RDWR ||| O_CREATE ||| O_TRUNC).testBit 6 &&
      (O_RDWR ||| O_CREATE ||| O_TRUNC).testBit 7) = false := by decide
  have h6 : (O_RDWR ||| O_CREATE ||| O_TRUNC).testBit 6 = true := by decide
  unfold Create OpenFile
  rw [habs]
  simp only [checkAndReserve, hreg]
  unfold openAndLock osOpen
  rw [hof]
  simp only [hfs, h6, if_pos rfl, posixLock, hlk]
  simp only [EWOULDBLOCK, ne_eq, not_true_eq_false, if_neg, reduceIte]
  unfold osFileClose
  simp only [lookupA, if_pos rfl, rollback]
  refine ⟨rfl, by simp [lookupA], ?_⟩
  simp only [eraseAllA, if_pos rfl]
  exact eraseAllA_of_lookup_none w.registry p hreg

theorem c3_amended_create_no_delete_w :
    (Create osBlockA "b" wEmpty).1 = (none, some GoError.errLocked) ∧
    lookupA (Create osBlockA "b" wEmpty).2.fs "/a" = some ⟨438, []⟩ ∧
    (Create osBlockA "b" wEmpty).2.registry = wEmpty.registry :=
  c3_amended_create_no_delete osBlockA "b" "/a" wEmpty rfl rfl rfl (by decide) (by decide)

/-- C4 counterexample: Create on an existing, unlocked path succeeds without
error but truncates the file — the three bytes previously stored are gone. -/
theorem c4_create_truncates_cex :
    (Create osOkA "a" wContent).1.2 = none ∧
    lookupA (Create osOkA "a" wContent).2.fs "/a" = some ⟨438, []⟩ ∧
    lookupA (Create osOkA "a" wContent).2.fs "/a" ≠ some ⟨438, [1, 2, 3]⟩ := by decide

/-- C4 amended: Create on a non-existent path creates it with mode 0666 (the
source's Create takes no permission argument) and returns a handle whose
descriptor is open read-write; Create on an existing, unlocked path succeeds
without error but truncates the contents (O_TRUNC is part of its flags). -/
theorem c4_amended_create_semantics (os : Os) (name p : String) (w : World)
    (habs : os.absRes = some p) (hof : os.openFail = none)
    (hlk : os.fcntl = FcntlRes.ok) (hreg : lookupA w.registry p = none) :
    (lookupA w.fs p = none →
      (Create os name w).1.1 = some ⟨w.nextFd, name, p⟩ ∧
      (Create os name w).1.2 = none ∧
      lookupA (Create os name w).2.fs p = some ⟨438, []⟩ ∧
      lookupA (Create os name w).2.openFds w.nextFd
        = some (O_RDWR ||| O_CREATE ||| O_TRUNC)) ∧
    (∀ d, lookupA w.fs p = some d →
      (Create os name w).1.1 = some ⟨w.nextFd, name, p⟩ ∧
      (Create os name w).1.2 = none ∧
      lookupA (Create os name w).2.fs p = some ⟨d.perm, []⟩) := by
  have h67 : ((O_RDWR ||| O_CREATE ||| O_TRUNC).testBit 6 &&
      (O_RDWR ||| O_CREATE ||| O_TRUNC).testBit 7) = false := by decide
  have h6 : (O_RDWR ||| O_CREATE ||| O_TRUNC).testBit 6 = true := by decide
  have h9 : (O_RDWR ||| O_CREATE ||| O_TRUNC).testBit 9 = true := by decide
  constructor
  · intro hfs
    unfold Create OpenFile
    rw [habs]
    simp only [checkAndReserve, hreg]
    unfold openAndLock osOpen
    rw [hof]
    simp only [hfs, h6, if_pos rfl, posixLock, hlk]
    simp only [if_pos rfl, lookupA]
    exact ⟨rfl, rfl, by simp, by simp⟩
  · intro d hfs
    unfold Create OpenFile
    rw [habs]
    simp only [checkAndReserve, hreg]
    unfold openAndLock osOpen
    rw [hof]
    simp only [hfs, h67, h9, posixLock, hlk]
    simp only [Bool.false_eq_true, if_neg, reduceIte, if_pos rfl]
    simp [lookupA_setA_self]

theorem c4_amended_create_semantics_w :
    ((Create osOkA "a" wEmpty).1.1 = some ⟨0, "a", "/a"⟩ ∧
      (Create osOkA "a" wEmpty).1.2 = none ∧
      lookupA (Create osOkA "a" wEmpty).2.fs "/a" = some ⟨438, []⟩ ∧
      lookupA (Create osOkA "a" wEmpty).2.openFds 0
        = some (O_RDWR ||| O_CREATE ||| O_TRUNC)) ∧
    ((Create osOkA "a" wContent).1.1 = some ⟨0, "a", "/a"⟩ ∧
      (Create osOkA "a" wContent).1.2 = none ∧
      lookupA (Create osOkA "a" wContent).2.fs "/a" = some ⟨438, []⟩) :=
  ⟨(c4_amended_create_semantics osOkA "a" "/a" wEmpty rfl rfl rfl (by decide)).1
      (by decide),
   (c4_amended_create_semantics osOkA "a" "/a" wContent rfl rfl rfl (by decide)).2
      ⟨438, [1, 2, 3]⟩ (by decide)⟩

/-! ### Close / Release -/

theorem osFileClose_fs (fd : Nat) (w : World) : (osFileClose fd w).2.fs = w.fs := by
  unfold osFileClose
  cases h : lookupA w.openFds fd <;> simp

theorem osFileClose_none (fd : Nat) (w : World) (h : lookupA w.openFds fd = none) :
    osFileClose fd w = (some GoError.errFileClosed, w) := by
  unfold osFileClose
  rw [h]

theorem File.Close_eq (f : File) (o : Bool) (w : World) :
    File.Close f o w
      = ((osFileClose f.fd w).1,
         if o then (o, (osFileClose f.fd w).2)
         else (true, { (osFileClose f.fd w).2 with
                       registry := eraseAllA (osFileClose f.fd w).2.registry f.absPath })) := by
  cases o <;> rfl

theorem File.Release_eq (f : File) (o : Bool) (w : World) :
    File.Release f o w
      = if o then (none, o, w)
        else ((osFileClose f.fd (osRemove f.absPath f.name w)).1, true,
              { (osFileClose f.fd (osRemove f.absPath f.name w)).2 with
                registry :=
                  eraseAllA (osFileClose f.fd (osRemove f.absPath f.name w)).2.registry
                    f.absPath }) := by
  cases o <;> rfl

theorem closeIter_closed (f : File) (n : Nat) (w : World)
    (h : lookupA w.openFds f.fd = none) :
    closeIter f n (true, w) = (List.replicate n (some GoError.errFileClosed), (true, w)) := by
  induction n with
  | zero => rfl
  | succ n ih =>
    unfold closeIter
    rw [File.Close_eq, osFileClose_none f.fd w h]
    simp [ih, List.replicate_succ]

/-- A handle on /a whose descriptor 5 is open read-write-create-truncate. -/
def hFileA : File := ⟨5, "a", "/a"⟩

/-- A world in which hFileA is the live handle for /a. -/
def wOpenA : World :=
  ⟨[("/a", some ⟨5, "a", "/a"⟩)], [("/a", ⟨438, []⟩)], [(5, 578)], 6, []⟩

/-- C5 counterexample: a second Close on the same handle does not return nil:
it attempts to close the already-closed descriptor again (the descriptor close
sits outside the once-guard) and returns the OS already-closed error. -/
theorem c5_second_close_error_cex :
    (File.Close hFileA (File.Close hFileA false wOpenA).2.1
        (File.Close hFileA false wOpenA).2.2).1 = some GoError.errFileClosed := by decide

/-- C5 amended: Close removes the registry entry at most once no matter how
often it is invoked, and the first invocation returns the error from closing
the underlying descriptor; but every invocation re-attempts the descriptor
close, so each subsequent invocation returns the OS already-closed error
rather than nil, while leaving the world unchanged. -/
theorem c5_amended_close_once_registry (f : File) (w : World) (n : Nat)
    (h1 : (lookupA w.openFds f.fd).isSome)
    (h2 : lookupA (eraseFirstA w.openFds f.fd) f.fd = none) :
    closeIter f (n + 1) (false, w)
      = (none :: List.replicate n (some GoError.errFileClosed),
         (true,
          { w with openFds := eraseFirstA w.openFds f.fd,
                   registry := eraseAllA w.registry f.absPath,
                   trace := w.trace ++ [SysCall.closed f.fd] })) := by
  obtain ⟨fl, hfl⟩ := Option.isSome_iff_exists.mp h1
  have hclose : osFileClose f.fd w
      = (none, { w with openFds := eraseFirstA w.openFds f.fd,
                        trace := w.trace ++ [SysCall.closed f.fd] }) := by
    unfold osFileClose
    rw [hfl]
  unfold closeIter
  rw [File.Close_eq, hclose]
  simp only [Bool.false_eq_true, if_neg, reduceIte]
  rw [closeIter_closed f n _ (by simpa using h2)]

theorem c5_amended_close_once_registry_w :
    closeIter hFileA 3 (false, wOpenA)
      = (none :: List.replicate 2 (some GoError.errFileClosed),
         (true,
          { wOpenA with openFds := eraseFirstA wOpenA.openFds hFileA.fd,
                        registry := eraseAllA wOpenA.registry hFileA.absPath,
                        trace := wOpenA.trace ++ [SysCall.closed hFileA.fd] })) :=
  c5_amended_close_once_registry hFileA wOpenA 2 (by decide) (by decide)

/-- C6 counterexample: after a Release has performed teardown, a later Close
is not an error-free no-op: it re-attempts the descriptor close and returns
the OS already-closed error. -/
theorem c6_close_after_release_cex :
    (File.Close hFileA (File.Release hFileA false wOpenA).2.1
        (File.Release hFileA false wOpenA).2.2).1 = some GoError.errFileClosed := by decide

/-- C6 amended: Close and Release share the one-shot guard, and whichever runs
first performs teardown exactly once (Release also deletes the file); a later
Release is a no-op returning nil, but a later Close, while performing no
teardown and leaving the world unchanged, re-attempts the descriptor close and
returns the OS already-closed error rather than no error. -/
theorem c6_amended_oneshot_teardown (f : File) (w : World) :
    (File.Release f true w = (none, true, w)) ∧
    (lookupA w.openFds f.fd = none →
      File.Close f true w = (some GoError.errFileClosed, true, w)) ∧
    ((File.Release f false w).2.1 = true ∧
      (File.Release f false w).2.2.registry = eraseAllA w.registry f.absPath ∧
      (File.Release f false w).2.2.fs = eraseAllA w.fs f.absPath) ∧
    ((File.Close f false w).2.1 = true ∧
      (File.Close f false w).2.2.registry = eraseAllA w.registry f.absPath ∧
      (File.Close f false w).2.2.fs = w.fs) := by
  refine ⟨by rw [File.Release_eq]; simp, ?_, ?_, ?_⟩
  · intro h
    rw [File.Close_eq, osFileClose_none f.fd w h]
    simp
  · rw [File.Release_eq]
    simp [osFileClose_registry, osFileClose_fs, osRemove]
  · rw [File.Close_eq]
    simp [osFileClose_registry, osFileClose_fs]

theorem c6_amended_oneshot_teardown_w :
    (File.Release hFileA true wOpenA = (none, true, wOpenA)) ∧
    File.Close hFileA true wEmpty = (some GoError.errFileClosed, true, wEmpty) :=
  ⟨(c6_amended_oneshot_teardown hFileA wOpenA).1,
   (c6_amended_oneshot_teardown hFileA wEmpty).2.1 (by decide)⟩

/-! ### Acquire -/

theorem Acquire_eq (a0 : Attempt) (events : List AEvent) (name : String) (perm : Nat)
    (period : Int) (w : World) :
    Acquire a0 events name perm period w
      = if (CreatePerm a0 name perm w).1.2 = some GoError.errLocked then
          match newTicker period with
          | none => AcqOut.panicked (CreatePerm a0 name perm w).2
          | some _ => acquireLoop name perm events (CreatePerm a0 name perm w).2
        else
          AcqOut.ret (CreatePerm a0 name perm w).1.1 (CreatePerm a0 name perm w).1.2
            (CreatePerm a0 name perm w).2 := rfl

theorem acquireLoop_ctxDone (name : String) (perm : Nat) (e : GoError)
    (rest : List AEvent) (w : World) :
    acquireLoop name perm (AEvent.ctxDone e :: rest) w = AcqOut.ret none (some e) w := rfl

theorem acquireLoop_tick (name : String) (perm : Nat) (a : Attempt)
    (rest : List AEvent) (w : World) :
    acquireLoop name perm (AEvent.tick a :: rest) w
      = if (CreatePerm a name perm w).1.2 = some GoError.errLocked then
          acquireLoop name perm rest (CreatePerm a name perm w).2
        else
          AcqOut.ret (CreatePerm a name perm w).1.1 (CreatePerm a name perm w).1.2
            (CreatePerm a name perm w).2 := rfl

/-- Benign attempt oracles for the path resolving to /a. -/
def aOk : Attempt := ⟨osOkA, osOkA⟩

/-- C7: Acquire returns the first create attempt's result immediately whenever
it is anything other than the ErrLocked sentinel; only the already-locked
outcome enters the polling loop; the loop returns the context's cancellation
error as soon as the done event fires, returns the first non-already-locked
retry outcome immediately, and keeps polling only on already-locked. -/
theorem c7_acquire_control_flow (a0 : Attempt) (events : List AEvent) (name : String)
    (perm : Nat) (period : Int) (w : World) :
    ((CreatePerm a0 name perm w).1.2 ≠ some GoError.errLocked →
      Acquire a0 events name perm period w
        = AcqOut.ret (CreatePerm a0 name perm w).1.1 (CreatePerm a0 name perm w).1.2
            (CreatePerm a0 name perm w).2) ∧
    ((CreatePerm a0 name perm w).1.2 = some GoError.errLocked → 0 < period →
      Acquire a0 events name perm period w
        = acquireLoop name perm events (CreatePerm a0 name perm w).2) ∧
    (∀ e rest w2, acquireLoop name perm (AEvent.ctxDone e :: rest) w2
        = AcqOut.ret none (some e) w2) ∧
    (∀ a rest w2, (CreatePerm a name perm w2).1.2 ≠ some GoError.errLocked →
      acquireLoop name perm (AEvent.tick a :: rest) w2
        = AcqOut.ret (CreatePerm a name perm w2).1.1 (CreatePerm a name perm w2).1.2
            (CreatePerm a name perm w2).2) ∧
    (∀ a rest w2, (CreatePerm a name perm w2).1.2 = some GoError.errLocked →
      acquireLoop name perm (AEvent.tick a :: rest) w2
        = acquireLoop name perm rest (CreatePerm a name perm w2).2) := by
  refine ⟨?_, ?_, ?_, ?_, ?_⟩
  · intro h
    rw [Acquire_eq, if_neg h]
  · intro h hp
    rw [Acquire_eq, if_pos h]
    have ht : newTicker period = some () := by
      unfold newTicker
      rw [if_neg (by omega)]
    rw [ht]
  · intro e rest w2
    exact acquireLoop_ctxDone name perm e rest w2
  · intro a rest w2 h
    rw [acquireLoop_tick, if_neg h]
  · intro a rest w2 h
    rw [acquireLoop_tick, if_pos h]

theorem c7_acquire_control_flow_w :
    Acquire aOk [AEvent.ctxDone GoError.canceled] "a" 438 5 wReserved
      = acquireLoop "a" 438 [AEvent.ctxDone GoError.canceled]
          (CreatePerm aOk "a" 438 wReserved).2 ∧
    acquireLoop "a" 438 [AEvent.ctxDone GoError.canceled] wReserved
      = AcqOut.ret none (some GoError.canceled) wReserved :=
  ⟨(c7_acquire_control_flow aOk [AEvent.ctxDone GoError.canceled] "a" 438 5 wReserved).2.1
      (by decide) (by decide),
   (c7_acquire_control_flow aOk [] "a" 438 5 wReserved).2.2.1 GoError.canceled [] wReserved⟩

/-- C10: with a non-positive period, an Acquire whose first create attempt
returns the already-locked error panics at the ticker construction; Acquire
performs no validation of the period before entering the loop, so any
non-already-locked first outcome is still returned normally. -/
theorem c10_nonpositive_period_panics (a0 : Attempt) (events : List AEvent) (name : String)
    (perm : Nat) (period : Int) (w : World) (hp : period ≤ 0) :
    ((CreatePerm a0 name perm w).1.2 = some GoError.errLocked →
      Acquire a0 events name perm period w
        = AcqOut.panicked (CreatePerm a0 name perm w).2) ∧
    ((CreatePerm a0 name perm w).1.2 ≠ some GoError.errLocked →
      Acquire a0 events name perm period w
        = AcqOut.ret (CreatePerm a0 name perm w).1.1 (CreatePerm a0 name perm w).1.2
            (CreatePerm a0 name perm w).2) := by
  constructor
  · intro h
    rw [Acquire_eq, if_pos h]
    have ht : newTicker period = none := by
      unfold newTicker
      rw [if_pos hp]
    rw [ht]
  · intro h
    rw [Acquire_eq, if_neg h]

theorem c10_nonpositive_period_panics_w :
    Acquire aOk [] "a" 438 0 wReserved
      = AcqOut.panicked (CreatePerm aOk "a" 438 wReserved).2 :=
  (c10_nonpositive_period_panics aOk [] "a" 438 0 wReserved (by decide)).1 (by decide)

/-! ### Evaluation lemmas for benign attempts -/

theorem OpenFile_exists_ok (os : Os) (name p : String) (flag perm : Nat) (w : World)
    (d : FileData) (h1 : os.absRes = some p) (h2 : os.openFail = none)
    (h3 : os.fcntl = FcntlRes.ok) (hreg : lookupA w.registry p = none)
    (hfs : lookupA w.fs p = some d) (hflag : (flag.testBit 6 && flag.testBit 7) = false) :
    (OpenFile os name flag perm w).1 = (some ⟨w.nextFd, name, p⟩, none) := by
  unfold OpenFile
  rw [h1]
  simp only [checkAndReserve, hreg]
  unfold openAndLock osOpen
  rw [h2]
  simp only [hfs, hflag, posixLock, h3]
  simp

theorem OpenFile_enoent (os : Os) (name p : String) (flag perm : Nat) (w : World)
    (h1 : os.absRes = some p) (h2 : os.openFail = none)
    (hreg : lookupA w.registry p = none) (hfs : lookupA w.fs p = none)
    (hflag : flag.testBit 6 = false) :
    OpenFile os name flag perm w
      = ((none, some (GoError.osError ENOENT)),
         { w with trace := w.trace ++ [SysCall.opened name flag perm] }) := by
  unfold OpenFile
  rw [h1]
  simp only [checkAndReserve, hreg]
  unfold openAndLock osOpen
  rw [h2]
  simp only [hfs, hflag, Bool.false_eq_true, reduceIte]
  unfold rollback
  simp only [eraseAllA, if_pos rfl, eraseAllA_of_lookup_none w.registry p hreg]
  simp

theorem OpenFile_create_ok (os : Os) (name p : String) (flag perm : Nat) (w : World)
    (h1 : os.absRes = some p) (h2 : os.openFail = none) (h3 : os.fcntl = FcntlRes.ok)
    (hreg : lookupA w.registry p = none) (hfs : lookupA w.fs p = none)
    (hflag : flag.testBit 6 = true) :
    (OpenFile os name flag perm w).1 = (some ⟨w.nextFd, name, p⟩, none) := by
  unfold OpenFile
  rw [h1]
  simp only [checkAndReserve, hreg]
  unfold openAndLock osOpen
  rw [h2]
  simp only [hfs, hflag, posixLock, h3, reduceIte]

theorem CreatePerm_reserved (a : Attempt) (name : String) (perm : Nat) (w : World)
    (p : String) (v : Option File) (h1 : a.os1.absRes = some p)
    (hreg : lookupA w.registry p = some v) :
    CreatePerm a name perm w = ((none, some GoError.errLocked), w) := by
  unfold CreatePerm OpenFile
  rw [h1]
  simp [checkAndReserve, hreg]

theorem CreatePerm_benign_success (a : Attempt) (name p : String) (perm : Nat) (w : World)
    (h1 : a.os1.absRes = some p) (h2 : a.os1.openFail = none) (h3 : a.os1.fcntl = FcntlRes.ok)
    (h4 : a.os2.absRes = some p) (h5 : a.os2.openFail = none) (h6 : a.os2.fcntl = FcntlRes.ok)
    (hreg : lookupA w.registry p = none) :
    (CreatePerm a name perm w).1.1.isSome ∧ (CreatePerm a name perm w).1.2 = none := by
  cases hfs : lookupA w.fs p with
  | some d =>
    have hproj := OpenFile_exists_ok a.os1 name p O_RDWR perm w d h1 h2 h3 hreg hfs (by decide)
    rcases hO : OpenFile a.os1 name O_RDWR perm w with ⟨⟨f1, e1⟩, w1⟩
    rw [hO] at hproj
    injection hproj with hf he
    unfold CreatePerm
    rw [hO]
    subst he
    simp [hf]
  | none =>
    have hO1 := OpenFile_enoent a.os1 name p O_RDWR perm w h1 h2 hreg hfs (by decide)
    have hreg1 : lookupA ({ w with
        trace := w.trace ++ [SysCall.opened name O_RDWR perm] } : World).registry p = none := hreg
    have hfs1 : lookupA ({ w with
        trace := w.trace ++ [SysCall.opened name O_RDWR perm] } : World).fs p = none := hfs
    have hproj := OpenFile_create_ok a.os2 name p (O_RDWR ||| O_CREATE ||| O_EXCL) perm
      { w with trace := w.trace ++ [SysCall.opened name O_RDWR perm] }
      h4 h5 h6 hreg1 hfs1 (by decide)
    rcases hO2 : OpenFile a.os2 name (O_RDWR ||| O_CREATE ||| O_EXCL) perm
        { w with trace := w.trace ++ [SysCall.opened name O_RDWR perm] } with ⟨⟨f2, e2⟩, w2⟩
    rw [hO2] at hproj
    injection hproj with hf he
    unfold CreatePerm
    rw [hO1]
    simp only [ENOENT, if_pos rfl, reduceIte]
    rw [hO2]
    subst he
    simp [hf]

/-- C8 counterexample: with a context already cancelled (its done event is the
first the loop would see) and an uncontended path, Acquire does not return the
cancellation error — the first create attempt succeeds before the context is
ever consulted, and the successfully acquired handle is returned. -/
theorem c8_cancelled_uncontended_cex :
    (Acquire aOk [AEvent.ctxDone GoError.canceled] "a" 438 100 wEmpty).errOf
        ≠ some GoError.canceled ∧
    (Acquire aOk [AEvent.ctxDone GoError.canceled] "a" 438 100 wEmpty).handleOf ≠ none := by
  decide

/-- C8 amended: with an already-cancelled context and an uncontended path,
Acquire returns the successfully acquired handle with no error and without
ever blocking, because the context is consulted only after an already-locked
first attempt; only when the path is contended does Acquire return the
cancellation error, again without blocking. -/
theorem c8_amended_acquire_cancellation (a : Attempt) (events : List AEvent)
    (name p : String) (perm : Nat) (period : Int) (w : World)
    (h1 : a.os1.absRes = some p) (h2 : a.os1.openFail = none) (h3 : a.os1.fcntl = FcntlRes.ok)
    (h4 : a.os2.absRes = some p) (h5 : a.os2.openFail = none) (h6 : a.os2.fcntl = FcntlRes.ok)
    (hp : 0 < period) :
    (lookupA w.registry p = none →
      (Acquire a events name perm period w).errOf = none ∧
      (Acquire a events name perm period w).handleOf.isSome) ∧
    (∀ v, lookupA w.registry p = some v → ∀ ec rest,
      Acquire a (AEvent.ctxDone ec :: rest) name perm period w
        = AcqOut.ret none (some ec) w) := by
  constructor
  · intro hreg
    have hsucc := CreatePerm_benign_success a name p perm w h1 h2 h3 h4 h5 h6 hreg
    rw [Acquire_eq, if_neg (by rw [hsucc.2]; simp)]
    exact ⟨hsucc.2, hsucc.1⟩
  · intro v hreg ec rest
    have hlk := CreatePerm_reserved a name perm w p v h1 hreg
    rw [Acquire_eq]
    have ht : newTicker period = some () := by
      unfold newTicker
      rw [if_neg (by omega)]
    simp [hlk, ht, acquireLoop_ctxDone]

theorem c8_amended_acquire_cancellation_w :
    ((Acquire aOk [] "a" 438 5 wEmpty).errOf = none ∧
      (Acquire aOk [] "a" 438 5 wEmpty).handleOf.isSome) ∧
    Acquire aOk [AEvent.ctxDone GoError.canceled] "a" 438 5 wReserved
      = AcqOut.ret none (some GoError.canceled) wReserved :=
  ⟨(c8_amended_acquire_cancellation aOk [] "a" "/a" 438 5 wEmpty
      rfl rfl rfl rfl rfl rfl (by decide)).1 (by decide),
   (c8_amended_acquire_cancellation aOk [] "a" "/a" 438 5 wReserved
      rfl rfl rfl rfl rfl rfl (by decide)).2 none (by decide) GoError.canceled []⟩

end Filelock
